import Mathlib

/-!
LearnGenie ("AI Tutor") — verification of the specified client and schema
behaviour.

This file is a shallow embedding, in Lean 4, of the parts of the LearnGenie
repository that its specification talks about:

* the MCQ generation / validation / quiz scoring flow of the `MCQGenerator`
  React component (`src/unnamed/part_001`),
* the `sendMessage` flow of the two `ChatInterface` implementations
  (`src/unnamed/part_005`),
* the upload/scrape input validation handlers
  (`src/vite-project/src/components/WebScraper.jsx`,
  `src/vite-project/src/components/Dashboard.jsx`, `src/unnamed/part_003`),
* the relational schema with its uniqueness constraint and
  `ON DELETE CASCADE` behaviour (`src/SUPABASE_SCHEMA_ENHANCED.sql`).

JavaScript values that cross the JSON boundary are modelled by the `JsValue`
inductive; JavaScript numbers are modelled by `ℚ` (the comparisons performed
by the code — `>= 0`, `< 4`, `===` — are exact on the values involved).
Network calls are modelled by explicit outcome parameters: a handler is a pure
function of its component state and of the outcome of the `fetch` it issues.
-/

namespace LearnGenie

/-! ## JavaScript value model -/

/-- A JSON-ish JavaScript runtime value.  `null` is JavaScript `null`;
absence of an object field models `undefined`. -/
inductive JsValue where
  | null
  | bool (b : Bool)
  | num (q : ℚ)
  | str (s : String)
  | arr (elems : List JsValue)
  | obj (fields : List (String × JsValue))
deriving Repr

/-- JavaScript truthiness of a value (`if (v)`).  `null`, `false`, `0` and
`""` are falsy; arrays and objects are always truthy. -/
def jsTruthy : JsValue → Bool
  | .null => false
  | .bool b => b
  | .num q => q != 0
  | .str s => s != ""
  | .arr _ => true
  | .obj _ => true

/-- Whether `typeof v === 'object'` holds: true for `null`, arrays and plain
objects, false for booleans, numbers and strings. -/
def jsTypeofObject : JsValue → Bool
  | .null => true
  | .arr _ => true
  | .obj _ => true
  | _ => false

/-- Property access `v.k`: `some` value for a present object field, `none`
(JavaScript `undefined`) otherwise. -/
def jsField : JsValue → String → Option JsValue
  | .obj fields, k => fields.lookup k
  | _, _ => none

/-- Truthiness of a property access (`v.k` used as a condition); a missing
field (`undefined`) is falsy. -/
def jsFieldTruthy (v : JsValue) (k : String) : Bool :=
  match jsField v k with
  | some w => jsTruthy w
  | none => false

/-- `String.prototype.includes`: `s.includes(pat)`. -/
def jsIncludes (s pat : String) : Bool :=
  decide (pat.data <:+: s.data)

/-- `String.prototype.trim`: strip leading and trailing whitespace. -/
def jsTrim (s : String) : String :=
  String.mk (((s.data.dropWhile Char.isWhitespace).reverse.dropWhile
    Char.isWhitespace).reverse)

/-! ## MCQ generation (`generateMCQs` in `MCQGenerator`, src/unnamed/part_001) -/

/-- Thrown when the parsed response is falsy or not of object type. -/
def errInvalidFormat : String := "Invalid response format received from server"

/-- Thrown when `data.mcqs` is falsy or not an array. -/
def errNoArray : String := "No MCQs array found in response"

/-- Thrown when the server returned an empty `mcqs` array. -/
def errEmptyMCQs : String :=
  "No MCQs were generated. Please try again or check if the book has content."

/-- Thrown when per-item validation filtered out every returned item. -/
def errNoValid : String := "No valid MCQs found in the response"

/-- The per-item validation predicate used by `generateMCQs`
(`data.mcqs.filter(mcq => ...)` at src/unnamed/part_001 lines 59-68):
the item is truthy, of object type, has a truthy `question`, an `options`
array of length exactly 4, and a numeric `correct_answer` in `[0, 4)`. -/
def isValidMCQ (mcq : JsValue) : Bool :=
  jsTruthy mcq &&
  jsTypeofObject mcq &&
  jsFieldTruthy mcq "question" &&
  (match jsField mcq "options" with
   | some (.arr opts) => opts.length == 4
   | _ => false) &&
  (match jsField mcq "correct_answer" with
   | some (.num q) => decide (0 ≤ q) && decide (q < 4)
   | _ => false)

/-- The response-validation phase of `generateMCQs` (src/unnamed/part_001
lines 43-74): the body of the `try` block after a successful `fetch`,
returning the accepted item list or the message of the `Error` it throws. -/
def validateMCQResponse (data : JsValue) : Except String (List JsValue) :=
  if !(jsTruthy data && jsTypeofObject data) then
    .error errInvalidFormat
  else
    match jsField data "mcqs" with
    | some (.arr ms) =>
      if ms.length == 0 then
        .error errEmptyMCQs
      else
        let validMcqs := ms.filter isValidMCQ
        if validMcqs.length == 0 then
          .error errNoValid
        else
          .ok validMcqs
    | _ => .error errNoArray

/-- Outcome of the `fetch('/generate-mcqs')` call together with parsing the
body: the promise rejected (a `TypeError`, network failure), the response was
not ok (status and body text), or ok with parsed JSON `data`. -/
inductive FetchOutcome where
  | networkError
  | httpError (status : Nat) (body : String)
  | ok (data : JsValue)

/-- A failure inside the `try` block of `generateMCQs`: either the `fetch`
`TypeError` or a thrown `Error` carrying a message. -/
inductive MCQFailure where
  | network
  | thrown (msg : String)

/-- The `try`-block of `generateMCQs` as a function of the fetch outcome:
non-ok responses throw `Failed to generate MCQs: <status> - <body>`
(src/unnamed/part_001 lines 38-41), ok responses run the validation phase. -/
def mcqTryResult : FetchOutcome → Except MCQFailure (List JsValue)
  | .networkError => .error .network
  | .httpError status body =>
      .error (.thrown ("Failed to generate MCQs: " ++ toString status ++ " - " ++ body))
  | .ok data => (validateMCQResponse data).mapError .thrown

/-- The error classification of the `catch` block (src/unnamed/part_001
lines 80-89) producing the user-visible error text. -/
def classifyMCQError : MCQFailure → String
  | .network => "Unable to connect to the server. Please check if the backend is running."
  | .thrown msg =>
    if jsIncludes msg "Failed to generate MCQs: 500" then
      "Server error occurred. The AI service might be temporarily unavailable."
    else if jsIncludes msg "book has content" then
      "The selected book appears to have no content. Please try uploading the book again."
    else
      msg

/-- The `MCQGenerator` component state touched by quiz generation:
`step`, the accepted MCQ list, and the error banner. -/
structure MCQState where
  step : String
  mcqs : List JsValue
  error : Option String
  isGenerating : Bool

/-- One run of `generateMCQs` (src/unnamed/part_001 lines 19-95) as a state
transition on the component state, given the outcome of its `fetch`:
on success set `step = 'quiz'` and store the validated items; on any failure
set the classified error message and fall back to `step = 'config'`. -/
def generateMCQs (st : MCQState) (o : FetchOutcome) : MCQState :=
  match mcqTryResult o with
  | .ok validMcqs =>
      { st with step := "quiz", mcqs := validMcqs, error := none, isGenerating := false }
  | .error e =>
      { st with step := "config", error := some (classifyMCQError e), isGenerating := false }

/-! ## Quiz answering and scoring (`handleAnswerSelect`, `submitQuiz`) -/

mutual

/-- Structural equality of JavaScript values, used to model `===` and object
key identity on the (primitive) values this code stores. -/
def JsValue.beq : JsValue → JsValue → Bool
  | .null, .null => true
  | .bool a, .bool b => a == b
  | .num a, .num b => a == b
  | .str a, .str b => a == b
  | .arr xs, .arr ys => JsValue.beqList xs ys
  | .obj xs, .obj ys => JsValue.beqFields xs ys
  | _, _ => false

/-- Elementwise equality of value lists. -/
def JsValue.beqList : List JsValue → List JsValue → Bool
  | [], [] => true
  | x :: xs, y :: ys => JsValue.beq x y && JsValue.beqList xs ys
  | _, _ => false

/-- Elementwise equality of object field lists. -/
def JsValue.beqFields : List (String × JsValue) → List (String × JsValue) → Bool
  | [], [] => true
  | (k, v) :: xs, (l, w) :: ys => k == l && JsValue.beq v w && JsValue.beqFields xs ys
  | _, _ => false

end

/-- Equality of `mcq.id` keys; `none` models `undefined`.  (JavaScript coerces
object keys to strings, which can identify values such as `1` and `"1"`; the
embedding keeps them distinct, which agrees with the string coercion whenever
the ids are the distinct numbers the code generates.) -/
def jsOptBeq : Option JsValue → Option JsValue → Bool
  | some a, some b => JsValue.beq a b
  | none, none => true
  | _, _ => false

/-- `userAnswers[id]`: the recorded answer index for a question id, if any. -/
def answersLookup (userAnswers : List (Option JsValue × ℚ)) (k : Option JsValue) : Option ℚ :=
  match userAnswers.find? (fun p => jsOptBeq p.1 k) with
  | some p => some p.2
  | none => none

/-- `handleAnswerSelect` (src/unnamed/part_001 lines 118-123): record
`userAnswers[questionId] = answerIndex`, replacing an existing entry. -/
def handleAnswerSelect (userAnswers : List (Option JsValue × ℚ))
    (questionId : Option JsValue) (answerIndex : ℚ) : List (Option JsValue × ℚ) :=
  if userAnswers.any (fun p => jsOptBeq p.1 questionId) then
    userAnswers.map (fun p => if jsOptBeq p.1 questionId then (p.1, answerIndex) else p)
  else
    userAnswers ++ [(questionId, answerIndex)]

/-- `userAnswers[mcq.id] === mcq.correct_answer`: a recorded numeric answer
strictly equal to a numeric `correct_answer`; `undefined === undefined` is
true, every mixed comparison is false. -/
def jsStrictEqAnswer : Option ℚ → Option JsValue → Bool
  | some q, some (.num r) => q == r
  | none, none => true
  | _, _ => false

/-- `Math.round` on a (non-`NaN`) number: the floor of `q + 1/2`. -/
def jsMathRound (q : ℚ) : ℤ := ⌊q + 1/2⌋

/-- The `finalScore` object built by `submitQuiz`. -/
structure QuizScore where
  correct : ℕ
  total : ℕ
  percentage : ℤ

/-- `submitQuiz` (src/unnamed/part_001 lines 125-141): count the questions
whose recorded answer equals `correct_answer`, and round the percentage. -/
def submitQuiz (mcqs : List JsValue) (userAnswers : List (Option JsValue × ℚ)) : QuizScore :=
  let correctCount := mcqs.countP (fun mcq =>
    jsStrictEqAnswer (answersLookup userAnswers (jsField mcq "id"))
      (jsField mcq "correct_answer"))
  { correct := correctCount
    total := mcqs.length
    percentage := jsMathRound ((correctCount : ℚ) / (mcqs.length : ℚ) * 100) }

/-- The enabling condition of the Submit Quiz button (src/unnamed/part_001
line 485): `disabled={Object.keys(userAnswers).length !== mcqs.length}`. -/
def submitEnabled (mcqs : List JsValue) (userAnswers : List (Option JsValue × ℚ)) : Bool :=
  userAnswers.length == mcqs.length

/-! ## Chat message sending (`sendMessage` in both `ChatInterface`
implementations, src/unnamed/part_005) -/

/-- A source excerpt attached to an assistant message (`source.content`). -/
structure ChatSource where
  content : String

/-- A chat message as built by `sendMessage`; `sources` is absent on user and
fallback messages. -/
structure ChatMessage where
  role : String
  content : String
  timestamp : String
  sources : Option (List ChatSource)

/-- The body of the `POST /chat` request. -/
structure ChatRequest where
  book_id : String
  message : String
  user_id : String
  chat_history : List ChatMessage

/-- Outcome of the `fetch('/chat')` call: parsed success data, a non-ok
response, or a rejected promise.  The error payloads are carried to show the
handlers never use them. -/
inductive SendOutcome where
  | ok (response : String) (sources : Option (List ChatSource))
  | httpError (status : Nat) (body : String)
  | networkError (msg : String)

/-- The component state read by `sendMessage`. -/
structure ChatSendState where
  messages : List ChatMessage
  inputMessage : String
  isLoading : Bool

/-- The fixed user-visible fallback text appended when the `/chat` call
fails (both implementations, src/unnamed/part_005 lines 174 and 789). -/
def chatErrorFallback : String :=
  "Sorry, I encountered an error while processing your message. Please try again."

namespace ChatCurrent

/-- `sendMessage` of the current `ChatInterface` (src/unnamed/part_005 lines
95-182), restricted to the `/chat` boundary: the request it issues (if any)
and the resulting message list.  `now1`/`now2` are the two
`new Date().toISOString()` readings. -/
def sendMessage (bookId userId : String) (st : ChatSendState) (o : SendOutcome)
    (now1 now2 : String) : Option ChatRequest × List ChatMessage :=
  if jsTrim st.inputMessage == "" || st.isLoading then (none, st.messages)
  else
    let userMessage := jsTrim st.inputMessage
    let newUserMessage : ChatMessage := ⟨"user", userMessage, now1, none⟩
    let updatedMessages := st.messages ++ [newUserMessage]
    let req : ChatRequest := ⟨bookId, userMessage, userId, st.messages⟩
    match o with
    | .ok response sources =>
        let aiMessage : ChatMessage := ⟨"assistant", response, now2, sources⟩
        (some req, updatedMessages ++ [aiMessage])
    | .httpError _ _ =>
        let errorMessage : ChatMessage := ⟨"assistant", chatErrorFallback, now2, none⟩
        (some req, updatedMessages ++ [errorMessage])
    | .networkError _ =>
        let errorMessage : ChatMessage := ⟨"assistant", chatErrorFallback, now2, none⟩
        (some req, updatedMessages ++ [errorMessage])

end ChatCurrent

namespace ChatLegacy

/-- `sendMessage` of the legacy `ChatInterface` (src/unnamed/part_005 lines
740-796): the user message is appended with a functional state update
(`setMessages(prev => [...prev, ...])`), then the success/failure message is
appended to that state; the request body uses the pre-append `messages`. -/
def sendMessage (bookId userId : String) (st : ChatSendState) (o : SendOutcome)
    (now1 now2 : String) : Option ChatRequest × List ChatMessage :=
  if jsTrim st.inputMessage == "" || st.isLoading then (none, st.messages)
  else
    let userMessage := jsTrim st.inputMessage
    let newUserMessage : ChatMessage := ⟨"user", userMessage, now1, none⟩
    let afterUser := st.messages ++ [newUserMessage]
    let req : ChatRequest := ⟨bookId, userMessage, userId, st.messages⟩
    match o with
    | .ok response sources =>
        (some req, afterUser ++ [(⟨"assistant", response, now2, sources⟩ : ChatMessage)])
    | .httpError _ _ =>
        (some req, afterUser ++ [(⟨"assistant", chatErrorFallback, now2, none⟩ : ChatMessage)])
    | .networkError _ =>
        (some req, afterUser ++ [(⟨"assistant", chatErrorFallback, now2, none⟩ : ChatMessage)])

end ChatLegacy

/-! ## Upload and scrape input validation (WebScraper.jsx, Dashboard.jsx,
legacy dashboard src/unnamed/part_003) -/

/-- The fields of a browser `File` object read by the handlers. -/
structure JsFile where
  name : String
  size : Nat
  type : String

/-- What `handleSubmit` of `WebScraper` does: nothing (blank url), an alert
for an unparsable url, or a scrape call (which performs the
`fetch('/scrape-url')` in `handleWebScrape`). -/
inductive ScraperAction where
  | noop
  | alertInvalidURL
  | scrape (url : String) (title : Option String)

/-- `handleSubmit` (WebScraper.jsx lines 9-33).  `urlParseOk` stands for
whether the browser constructor `new URL(url)` succeeds; the URL parser
itself is external to this repository. -/
def handleSubmit (url title : String) (urlParseOk : Bool) : ScraperAction :=
  if jsTrim url == "" then .noop
  else if !urlParseOk then .alertInvalidURL
  else .scrape (jsTrim url) (if jsTrim title == "" then none else some (jsTrim title))

/-- Whether the action reaches `onWebScrape`, i.e. issues the network call. -/
def scraperIssuesFetch : ScraperAction → Bool
  | .scrape _ _ => true
  | _ => false

/-- What `handleFileSelect` of the current Dashboard does: nothing, an
oversize alert, or opening the upload modal with the selected file. -/
inductive FileSelectResult where
  | noop
  | alertTooLarge
  | openModal (selectedFile : JsFile) (bookName : String)

/-- `fileName.lastIndexOf('.')`. -/
def jsLastIndexOfDot (s : String) : Int :=
  match s.data.reverse.findIdx? (· == '.') with
  | some j => ((s.data.length : Int) - 1 - (j : Int))
  | none => -1

/-- `fileName.substring(0, fileName.lastIndexOf('.')) || fileName`
(Dashboard.jsx line 76). -/
def fileStem (fileName : String) : String :=
  let i := jsLastIndexOfDot fileName
  let stem := if i ≤ 0 then "" else String.mk (fileName.data.take i.toNat)
  if stem == "" then fileName else stem

/-- `handleFileSelect` (Dashboard.jsx lines 68-82): reject a missing file or
one larger than 50 MB before anything else; otherwise open the modal. -/
def handleFileSelect (file : Option JsFile) : FileSelectResult :=
  match file with
  | none => .noop
  | some f =>
    if f.size > 50 * 1024 * 1024 then .alertTooLarge
    else .openModal f (fileStem f.name)

/-- The modal state produced by a file selection, if any; the
`fetch('/upload-book')` of `handleFileUpload` is reachable only from an open
modal. -/
def modalOf : FileSelectResult → Option (JsFile × String)
  | .openModal f n => some (f, n)
  | _ => none

/-- The `POST /upload-book` request of the current Dashboard
(query `user_id`, `book_name`; multipart file). -/
structure UploadRequest where
  user_id : String
  book_name : String
  file : JsFile

/-- The request-issuing part of `handleFileUpload` (Dashboard.jsx lines
128-155): `none` (no fetch) when no file is selected or the name is blank. -/
def handleFileUploadRequest (selectedFile : Option JsFile) (bookName userId : String) :
    Option UploadRequest :=
  match selectedFile with
  | none => none
  | some f =>
    if jsTrim bookName == "" then none else some ⟨userId, jsTrim bookName, f⟩

/-- The `POST /upload-book` request of the legacy dashboard (form fields
`file` and `user_id`). -/
structure LegacyUploadRequest where
  user_id : String
  file : JsFile

namespace LegacyDashboard

/-- `handleFileUpload` of the legacy dashboard (src/unnamed/part_003 lines
31-48): `none` (alert, no fetch) when no file is given or its MIME type does
not contain `pdf`; otherwise the upload request for the file. -/
def handleFileUpload (file : Option JsFile) (userId : String) : Option LegacyUploadRequest :=
  match file with
  | none => none
  | some f =>
    if !(jsIncludes f.type "pdf") then none
    else some ⟨userId, f⟩

end LegacyDashboard

/-! ## Relational schema (SUPABASE_SCHEMA_ENHANCED.sql, enhanced version)

Rows are embedded with the columns of the enhanced schema; SQL `NULL`able
columns are `Option`s, `UUID`, `TEXT` and timestamp columns are `String`s,
`NUMERIC` is `ℚ`. -/

/-- A row of `public.books` (schema lines 15-64). -/
structure BookRow where
  id : String
  user_id : String
  title : String
  filename : String
  original_filename : String
  file_size : Option Int
  file_type : String
  format_details : Option String
  page_count : Option Int
  sheet_count : Option Int
  slide_count : Option Int
  paragraph_count : Option Int
  table_count : Option Int
  character_count : Option Int
  line_count : Option Int
  row_count : Option Int
  url_source : Option String
  author : Option String
  publish_date : Option String
  description : Option String
  keywords : Option String
  extraction_method : Option String
  image_size : Option String
  image_mode : Option String
  duration_seconds : Option ℚ
  encoding : Option String
  status : String
  error_message : Option String
  pinecone_namespace : Option String
  upload_date : Option String
  processed_date : Option String
  created_at : Option String
  updated_at : Option String

/-- A row of `public.conversations` (schema lines 67-74). -/
structure ConversationRow where
  id : String
  book_id : String
  user_id : String
  title : String
  created_at : Option String
  updated_at : Option String

/-- A row of `public.chat_histories` (schema lines 77-90). -/
structure ChatRow where
  id : String
  conversation_id : Option String
  book_id : String
  user_id : String
  role : String
  content : String
  sources : Option JsValue
  metadata : Option JsValue
  created_at : Option String

/-- A row of `public.mcqs` (schema lines 93-103). -/
structure McqRow where
  id : String
  book_id : String
  user_id : String
  question : String
  options : JsValue
  correct_answer : String
  difficulty : Option String
  explanation : Option String
  created_at : Option String

/-- The `CHECK` constraints on a `books` row (schema lines 24-27 and 55). -/
def bookRowChecksOk (r : BookRow) : Bool :=
  (decide (r.file_type ∈ ["pdf", "word", "excel", "powerpoint", "text",
      "image", "audio", "web", "unknown"])) &&
  (decide (r.status ∈ ["processing", "processed", "failed"]))

/-- Whether two `pinecone_namespace` column values collide under the SQL
`UNIQUE` constraint: only two equal non-`NULL` values do. -/
def nsEq : Option String → Option String → Bool
  | some a, some b => a == b
  | _, _ => false

/-- The `books` table. -/
structure BooksTable where
  rows : List BookRow

/-- The namespace-injectivity invariant: no two rows of the table carry the
same non-`NULL` `pinecone_namespace` (the `TEXT UNIQUE` constraint,
schema line 57). -/
def nsInvariant (t : BooksTable) : Prop :=
  t.rows.Pairwise (fun a b => nsEq a.pinecone_namespace b.pinecone_namespace = false)

/-- Primary-key distinctness of the `books` rows (schema line 16). -/
def idsDistinct (t : BooksTable) : Prop :=
  t.rows.Pairwise (fun a b => a.id ≠ b.id)

/-- `INSERT` into `public.books`: Postgres rejects the row (`none`) when a
`CHECK` fails, the primary key exists, or the new `pinecone_namespace`
collides with an existing non-`NULL` one. -/
def insertBook (t : BooksTable) (r : BookRow) : Option BooksTable :=
  if bookRowChecksOk r
      && t.rows.all (fun r0 => r0.id != r.id)
      && t.rows.all (fun r0 => !nsEq r0.pinecone_namespace r.pinecone_namespace) then
    some ⟨t.rows ++ [r]⟩
  else
    none

/-- `UPDATE public.books SET ... WHERE id = bid`, the row transformation
given by `f`: Postgres rejects the statement (`none`) when a resulting row
fails a `CHECK` or its new `pinecone_namespace` collides with another row. -/
def updateBook (t : BooksTable) (bid : String) (f : BookRow → BookRow) : Option BooksTable :=
  if (t.rows.filter (fun r => r.id == bid)).all
      (fun r => bookRowChecksOk (f r)
        && (t.rows.filter (fun r0 => r0.id != bid)).all
            (fun r0 => !nsEq (f r).pinecone_namespace r0.pinecone_namespace)) then
    some ⟨t.rows.map (fun r => if r.id == bid then f r else r)⟩
  else
    none

/-- The database state across the four content tables. -/
structure DBState where
  books : List BookRow
  conversations : List ConversationRow
  chat_histories : List ChatRow
  mcqs : List McqRow

/-- Deleting a `books` row with the schema's `ON DELETE CASCADE` foreign
keys: `conversations.book_id` (line 69), `chat_histories.book_id` (line 80)
and `chat_histories.conversation_id` (line 79), and `mcqs.book_id`
(line 95) all cascade.  This is the database effect of the
`DELETE /book/{id}` issued by `deleteBook` (Dashboard.jsx lines 215-235). -/
def deleteBookCascade (db : DBState) (bid : String) : DBState :=
  let deletedConvIds := (db.conversations.filter (fun c => c.book_id == bid)).map (·.id)
  { books := db.books.filter (fun b => b.id != bid)
    conversations := db.conversations.filter (fun c => c.book_id != bid)
    chat_histories := db.chat_histories.filter (fun m =>
      m.book_id != bid &&
      !(match m.conversation_id with
        | some cid => deletedConvIds.contains cid
        | none => false))
    mcqs := db.mcqs.filter (fun m => m.book_id != bid) }

/-- The chat-history rows retrievable by a user for a book: the
`GET /chat-history/{book_id}?user_id` result under the owner-only `SELECT`
policy on `chat_histories` (schema lines 182-183). -/
def chatHistoryFor (db : DBState) (bid uid : String) : List ChatRow :=
  db.chat_histories.filter (fun m => m.book_id == bid && m.user_id == uid)

/-- Result of a `POST /chat` request. -/
inductive ChatResponse where
  | notFound
  | statusError (status : String)
  | answer (response : String) (sources : List ChatSource)

/-- Modelled from the spec: the backend HTTP service (the `/chat` handler) is
not under `src/` — only `backend/start.sh` and the frontend callers are.
Per spec §4.4, §6 and §8, a chat request looks the content item up for the
requesting user (404 / not-found when absent), returns an explicit error for
an item in `processing` or `failed` state, and only answers — via the
retrieval-augmented responder, abstracted here as `rag` — an item in
`processed` state. -/
def chatEndpoint (rag : String → String × List ChatSource) (db : DBState)
    (bid uid msg : String) : ChatResponse :=
  match db.books.find? (fun b => b.id == bid && b.user_id == uid) with
  | none => .notFound
  | some b =>
    if b.status == "processed" then
      .answer (rag msg).1 (rag msg).2
    else
      .statusError b.status

/-- Modelled from the spec: the backend writer of `chat_histories` is not
under `src/`.  Per spec §3, chat messages are "Append-only; never mutated,
only created and fetched", and the only chat-history operations the client
code issues are `GET /chat-history` (a read) and `POST /chat` (which creates
rows); these are the operations of the system on the store. -/
inductive ChatHistoryOp where
  | create (row : ChatRow)
  | fetch (bookId userId : String)

/-- Effect of one chat-history operation on the stored rows: a create
appends, a fetch reads. -/
def applyChatHistoryOp (rows : List ChatRow) : ChatHistoryOp → List ChatRow
  | .create r => rows ++ [r]
  | .fetch _ _ => rows

/-- Running a sequence of chat-history operations. -/
def runChatHistoryOps (rows : List ChatRow) (ops : List ChatHistoryOp) : List ChatRow :=
  ops.foldl applyChatHistoryOp rows

/-! ## Helper lemmas -/

/-- A successful property access forces the value to be an object. -/
theorem jsField_some_obj {v : JsValue} {k : String} {w : JsValue}
    (h : jsField v k = some w) : ∃ fields, v = .obj fields := by
  cases v <;> simp [jsField] at h ⊢

/-- An object is truthy and of object type. -/
theorem jsTruthy_typeof_of_field {v : JsValue} {k : String} {w : JsValue}
    (h : jsField v k = some w) : jsTruthy v = true ∧ jsTypeofObject v = true := by
  obtain ⟨fields, rfl⟩ := jsField_some_obj h
  exact ⟨rfl, rfl⟩

/-- The explicit reading of a successful `isValidMCQ` check. -/
theorem isValidMCQ_shape {m : JsValue} (h : isValidMCQ m = true) :
    (∃ fields, m = JsValue.obj fields) ∧
    (∃ qv, jsField m "question" = some qv ∧ jsTruthy qv = true) ∧
    (∃ opts, jsField m "options" = some (.arr opts) ∧ opts.length = 4) ∧
    (∃ q, jsField m "correct_answer" = some (.num q) ∧ 0 ≤ q ∧ q < 4) := by
  unfold isValidMCQ at h
  simp only [Bool.and_eq_true] at h
  obtain ⟨⟨⟨⟨-, -⟩, hq⟩, ho⟩, hc⟩ := h
  refine ⟨?_, ?_, ?_, ?_⟩
  · unfold jsFieldTruthy at hq
    cases hf : jsField m "question" with
    | none => rw [hf] at hq; exact absurd hq (by simp)
    | some qv => exact jsField_some_obj hf
  · unfold jsFieldTruthy at hq
    cases hf : jsField m "question" with
    | none => rw [hf] at hq; exact absurd hq (by simp)
    | some qv => rw [hf] at hq; exact ⟨qv, rfl, hq⟩
  · cases hf : jsField m "options" with
    | none => rw [hf] at ho; exact absurd ho (by simp)
    | some v =>
      rw [hf] at ho
      cases v <;> simp at ho
      next opts => exact ⟨opts, rfl, ho⟩
  · cases hf : jsField m "correct_answer" with
    | none => rw [hf] at hc; exact absurd hc (by simp)
    | some v =>
      rw [hf] at hc
      cases v <;> simp at hc
      next q => exact ⟨q, rfl, hc⟩

/-- A successful `validateMCQResponse` returns a nonempty sublist of the
server's items on which every item passed the filter. -/
theorem validateMCQResponse_ok {data : JsValue} {l : List JsValue}
    (h : validateMCQResponse data = .ok l) :
    l ≠ [] ∧ ∀ m ∈ l, isValidMCQ m = true := by
  unfold validateMCQResponse at h
  split at h
  · exact absurd h (by simp)
  · split at h
    next ms _ =>
      split at h
      · exact absurd h (by simp)
      · simp only at h
        split at h
        · exact absurd h (by simp)
        next hlen =>
          obtain rfl : ms.filter isValidMCQ = l := by
            simpa using h
          refine ⟨?_, fun m hm => (List.mem_filter.mp hm).2⟩
          intro hnil
          rw [hnil] at hlen
          simp at hlen
    · exact absurd h (by simp)

/-- A successful pass through the `try` block of `generateMCQs` comes from an
ok fetch whose data validated. -/
theorem mcqTryResult_ok {o : FetchOutcome} {l : List JsValue}
    (h : mcqTryResult o = .ok l) :
    ∃ data, o = .ok data ∧ validateMCQResponse data = .ok l := by
  cases o with
  | networkError => exact absurd h (by simp [mcqTryResult])
  | httpError status body => exact absurd h (by simp [mcqTryResult])
  | ok data =>
    refine ⟨data, rfl, ?_⟩
    simp only [mcqTryResult] at h
    cases hv : validateMCQResponse data with
    | error e => rw [hv] at h; exact absurd h (by simp [Except.mapError])
    | ok l2 =>
      rw [hv] at h
      simp only [Except.mapError, Except.ok.injEq] at h
      rw [h]

/-! ## Claim theorems -/

/-- **C1.** Every MCQ item accepted by the quiz generation flow
(`generateMCQs` in the `MCQGenerator` component) satisfies the required
shape: whenever a run of `generateMCQs` reaches the quiz screen
(`step = 'quiz'`, the only state in which items are shown to the user),
every element of the accepted list is an object with a truthy — in
particular non-empty — `question`, an `options` array of length exactly 4,
and a numeric `correct_answer` with `0 ≤ correct_answer < 4`. -/
theorem generateMCQs_accepted_items_valid (st : MCQState) (o : FetchOutcome)
    (h : (generateMCQs st o).step = "quiz") :
    ∀ m ∈ (generateMCQs st o).mcqs,
      (∃ fields, m = JsValue.obj fields) ∧
      (∃ qv, jsField m "question" = some qv ∧ jsTruthy qv = true) ∧
      (∃ opts, jsField m "options" = some (.arr opts) ∧ opts.length = 4) ∧
      (∃ q, jsField m "correct_answer" = some (.num q) ∧ 0 ≤ q ∧ q < 4) := by
  intro m hm
  unfold generateMCQs at h hm
  cases hr : mcqTryResult o with
  | error e => rw [hr] at h; simp at h
  | ok validMcqs =>
    rw [hr] at hm
    simp only at hm
    obtain ⟨data, rfl, hv⟩ := mcqTryResult_ok hr
    exact isValidMCQ_shape ((validateMCQResponse_ok hv).2 m hm)

/-- Sample component state before generation. -/
def mcqSampleState : MCQState := ⟨"config", [], none, false⟩

/-- A well-formed MCQ item as returned by the server. -/
def mcqGoodItem : JsValue :=
  .obj [("id", .num 1), ("question", .str "What is RAG?"),
        ("options", .arr [.str "a", .str "b", .str "c", .str "d"]),
        ("correct_answer", .num 2)]

/-- A malformed MCQ item (three options only). -/
def mcqBadItem : JsValue :=
  .obj [("id", .num 2), ("question", .str "Broken?"),
        ("options", .arr [.str "a", .str "b", .str "c"]),
        ("correct_answer", .num 0)]

/-- A server response mixing one valid and one invalid item. -/
def mcqMixedData : JsValue := .obj [("mcqs", .arr [mcqGoodItem, mcqBadItem])]

/-- Witness for C1 at a concrete successful generation. -/
theorem generateMCQs_accepted_items_valid_witness :
    ∃ q, jsField mcqGoodItem "correct_answer" = some (.num q) ∧ 0 ≤ q ∧ q < 4 :=
  (generateMCQs_accepted_items_valid mcqSampleState (.ok mcqMixedData) rfl
    mcqGoodItem (List.mem_singleton.mpr rfl)).2.2.2

/-- **C2.** Per-item validation failures in quiz generation are dropped
silently (the surviving valid items are returned with no error), but an
empty server list or a filter that removes every item makes
`generateMCQs` throw, landing the component in the error state
(`step = 'config'` with an error message) instead of the quiz; no input
reaches the quiz screen with an empty valid set. -/
theorem generateMCQs_empty_valid_set_fails (data : JsValue) (ms : List JsValue)
    (st : MCQState) (o : FetchOutcome) :
    (jsField data "mcqs" = some (.arr ms) →
      (ms.filter isValidMCQ ≠ [] →
        validateMCQResponse data = .ok (ms.filter isValidMCQ)) ∧
      (ms = [] → validateMCQResponse data = .error errEmptyMCQs) ∧
      (ms ≠ [] → ms.filter isValidMCQ = [] →
        validateMCQResponse data = .error errNoValid)) ∧
    (∀ l, validateMCQResponse data = .ok l → l ≠ []) ∧
    (∀ e, mcqTryResult o = .error e →
      (generateMCQs st o).step = "config" ∧ (generateMCQs st o).error ≠ none) ∧
    ((generateMCQs st o).step = "quiz" → (generateMCQs st o).mcqs ≠ []) := by
  refine ⟨?_, ?_, ?_, ?_⟩
  · intro hms
    obtain ⟨ht, hto⟩ := jsTruthy_typeof_of_field hms
    refine ⟨?_, ?_, ?_⟩
    · intro hfne
      have hmsne : ms ≠ [] := by
        intro h; rw [h] at hfne; simp at hfne
      have h1 : (ms.length == 0) = false := by
        simpa using hmsne
      have h2 : ((ms.filter isValidMCQ).length == 0) = false := by
        simpa using hfne
      simp [validateMCQResponse, ht, hto, hms, h1, h2]
    · rintro rfl
      simp [validateMCQResponse, ht, hto, hms]
    · intro hne hfe
      have h1 : (ms.length == 0) = false := by
        simpa using hne
      simp [validateMCQResponse, ht, hto, hms, h1, hfe]
  · intro l hl
    exact (validateMCQResponse_ok hl).1
  · intro e he
    simp [generateMCQs, he]
  · intro hq
    cases hr : mcqTryResult o with
    | error e => simp [generateMCQs, hr] at hq
    | ok l =>
      obtain ⟨d, rfl, hv⟩ := mcqTryResult_ok hr
      simp only [generateMCQs, hr]
      exact (validateMCQResponse_ok hv).1

/-- A server response with an empty `mcqs` array. -/
def mcqEmptyData : JsValue := .obj [("mcqs", .arr [])]

/-- A server response whose only item fails validation. -/
def mcqAllInvalidData : JsValue := .obj [("mcqs", .arr [mcqBadItem])]

/-- Witness for C2 at concrete responses. -/
theorem generateMCQs_empty_valid_set_fails_witness :
    validateMCQResponse mcqEmptyData = .error errEmptyMCQs ∧
    validateMCQResponse mcqAllInvalidData = .error errNoValid ∧
    validateMCQResponse mcqMixedData = .ok [mcqGoodItem] ∧
    (generateMCQs mcqSampleState (.ok mcqEmptyData)).step = "config" :=
  ⟨((generateMCQs_empty_valid_set_fails mcqEmptyData [] mcqSampleState
      .networkError).1 rfl).2.1 rfl,
   ((generateMCQs_empty_valid_set_fails mcqAllInvalidData [mcqBadItem] mcqSampleState
      .networkError).1 rfl).2.2 (List.cons_ne_nil _ _) rfl,
   ((generateMCQs_empty_valid_set_fails mcqMixedData [mcqGoodItem, mcqBadItem]
      mcqSampleState .networkError).1 rfl).1 (List.cons_ne_nil _ _),
   ((generateMCQs_empty_valid_set_fails mcqEmptyData [] mcqSampleState
      (.ok mcqEmptyData)).2.2.1 (.thrown errEmptyMCQs) rfl).1⟩

/-- **C10.** Quiz scoring is exact and bounded: under the Submit Quiz
button's enabling condition (recorded answers count equals the number of
questions) and with a nonempty quiz (the quiz screen renders only when
`mcqs.length > 0`), `submitQuiz` counts at most one correct answer per
question, so `correct ≤ total` with `total` the quiz length, and the rounded
percentage lies in `[0, 100]`. -/
theorem submitQuiz_score_bounds (mcqs : List JsValue)
    (userAnswers : List (Option JsValue × ℚ))
    (hne : mcqs ≠ []) (_hen : submitEnabled mcqs userAnswers = true) :
    (submitQuiz mcqs userAnswers).correct ≤ (submitQuiz mcqs userAnswers).total ∧
    (submitQuiz mcqs userAnswers).total = mcqs.length ∧
    0 ≤ (submitQuiz mcqs userAnswers).percentage ∧
    (submitQuiz mcqs userAnswers).percentage ≤ 100 := by
  have hcle : (submitQuiz mcqs userAnswers).correct ≤ mcqs.length :=
    List.countP_le_length _
  have hlen : 0 < mcqs.length := List.length_pos.mpr hne
  have key : ∀ c : ℕ, c ≤ mcqs.length →
      0 ≤ jsMathRound ((c:ℚ) / (mcqs.length:ℚ) * 100) ∧
      jsMathRound ((c:ℚ) / (mcqs.length:ℚ) * 100) ≤ 100 := by
    intro c hc
    have h1 : (c:ℚ) ≤ (mcqs.length : ℚ) := by exact_mod_cast hc
    have h2 : (0:ℚ) < (mcqs.length : ℚ) := by exact_mod_cast hlen
    have h3 : (c:ℚ) / (mcqs.length : ℚ) ≤ 1 := (div_le_one h2).mpr h1
    have hq0 : (0:ℚ) ≤ (c:ℚ) / (mcqs.length : ℚ) * 100 := by positivity
    have h4 : (c:ℚ) / (mcqs.length : ℚ) * 100 ≤ 100 := by
      calc (c:ℚ) / (mcqs.length : ℚ) * 100 ≤ 1 * 100 :=
            mul_le_mul_of_nonneg_right h3 (by norm_num)
        _ = 100 := by norm_num
    unfold jsMathRound
    constructor
    · exact Int.le_floor.mpr (by push_cast; linarith)
    · have h5 : ⌊(c:ℚ) / (mcqs.length : ℚ) * 100 + 1/2⌋ < 101 :=
        Int.floor_lt.mpr (by push_cast; linarith)
      omega
  exact ⟨hcle, rfl, (key _ hcle).1, (key _ hcle).2⟩

/-- The single-question quiz shown after generating from `mcqMixedData`. -/
def quizSampleMcqs : List JsValue := [mcqGoodItem]

/-- A full answer sheet for that quiz. -/
def quizSampleAnswers : List (Option JsValue × ℚ) := [(some (.num 1), 2)]

/-- Witness for C10 at a concrete answered quiz. -/
theorem submitQuiz_score_bounds_witness :
    0 ≤ (submitQuiz quizSampleMcqs quizSampleAnswers).percentage ∧
    (submitQuiz quizSampleMcqs quizSampleAnswers).percentage ≤ 100 :=
  ⟨(submitQuiz_score_bounds quizSampleMcqs quizSampleAnswers
      (List.cons_ne_nil _ _) rfl).2.2.1,
   (submitQuiz_score_bounds quizSampleMcqs quizSampleAnswers
      (List.cons_ne_nil _ _) rfl).2.2.2⟩

/-- Whether the `/chat` call failed (non-ok response or rejected fetch). -/
def sendFailed : SendOutcome → Bool
  | .ok _ _ => false
  | .httpError _ _ => true
  | .networkError _ => true

/-- **C3.** For every chat send in which the `/chat` request fails (network
error or non-ok HTTP status), `sendMessage` — in both `ChatInterface`
implementations — appends an assistant message whose content is exactly the
fixed fallback text, after the already-appended user message: the result is
the old list plus the user message plus the fallback message, independent of
the error's status, body or message, so the raw error is never surfaced and
the user message is never lost. -/
theorem sendMessage_failure_appends_fallback (bookId userId : String)
    (st : ChatSendState) (o : SendOutcome) (now1 now2 : String)
    (hin : jsTrim st.inputMessage ≠ "") (hload : st.isLoading = false)
    (hfail : sendFailed o = true) :
    (ChatCurrent.sendMessage bookId userId st o now1 now2).2 =
      st.messages ++
        [⟨"user", jsTrim st.inputMessage, now1, none⟩,
         ⟨"assistant", chatErrorFallback, now2, none⟩] ∧
    (ChatLegacy.sendMessage bookId userId st o now1 now2).2 =
      st.messages ++
        [⟨"user", jsTrim st.inputMessage, now1, none⟩,
         ⟨"assistant", chatErrorFallback, now2, none⟩] := by
  have hguard : (jsTrim st.inputMessage == "" || st.isLoading) = false := by
    rw [hload]
    simp [hin]
  cases o with
  | ok response sources => simp [sendFailed] at hfail
  | httpError status body =>
    exact ⟨by simp [ChatCurrent.sendMessage, hguard],
           by simp [ChatLegacy.sendMessage, hguard]⟩
  | networkError msg =>
    exact ⟨by simp [ChatCurrent.sendMessage, hguard],
           by simp [ChatLegacy.sendMessage, hguard]⟩

/-- A chat state with an empty history and a pending input. -/
def chatSampleState : ChatSendState := ⟨[], "Hello", false⟩

/-- Witness for C3 at a concrete failing send. -/
theorem sendMessage_failure_appends_fallback_witness :
    (ChatCurrent.sendMessage "b1" "u1" chatSampleState
        (.networkError "Failed to fetch") "t1" "t2").2 =
      chatSampleState.messages ++
        [⟨"user", jsTrim chatSampleState.inputMessage, "t1", none⟩,
         ⟨"assistant", chatErrorFallback, "t2", none⟩] :=
  (sendMessage_failure_appends_fallback "b1" "u1" chatSampleState
    (.networkError "Failed to fetch") "t1" "t2" (by decide) rfl rfl).1

/-- **C9.** The two `ChatInterface` implementations are equivalent at the
`/chat` boundary: on the same book id, user, state and fetch outcome they
issue the same request and produce the same resulting message list, and the
request they issue is
`{book_id, message = trimmed input, user_id, chat_history = prior messages}`
(the history excludes the message being sent). -/
theorem sendMessage_implementations_agree (bookId userId : String)
    (st : ChatSendState) (o : SendOutcome) (now1 now2 : String) :
    ChatCurrent.sendMessage bookId userId st o now1 now2 =
      ChatLegacy.sendMessage bookId userId st o now1 now2 ∧
    (jsTrim st.inputMessage ≠ "" → st.isLoading = false →
      (ChatCurrent.sendMessage bookId userId st o now1 now2).1 =
        some ⟨bookId, jsTrim st.inputMessage, userId, st.messages⟩) := by
  constructor
  · cases o <;> rfl
  · intro hin hload
    have hguard : (jsTrim st.inputMessage == "" || st.isLoading) = false := by
      rw [hload]
      simp [hin]
    cases o <;> simp [ChatCurrent.sendMessage, hguard]

/-- Witness for C9 at a concrete successful send. -/
theorem sendMessage_implementations_agree_witness :
    (ChatCurrent.sendMessage "b1" "u1" chatSampleState (.ok "hi" none) "t1" "t2").1 =
      some ⟨"b1", jsTrim chatSampleState.inputMessage, "u1", chatSampleState.messages⟩ :=
  (sendMessage_implementations_agree "b1" "u1" chatSampleState
    (.ok "hi" none) "t1" "t2").2 (by decide) rfl

/-- **C5.** Invalid inputs at the upload/scrape boundary are rejected before
any network call: a URL on which the browser parser fails never reaches
`onWebScrape` (the only fetch path of the scraper), a file over 50 MB never
opens the upload modal (the only path to the Dashboard's `/upload-book`
fetch), and a file whose MIME type does not contain `pdf` makes the legacy
upload handler return without a request. -/
theorem invalid_inputs_rejected_before_fetch (url title : String) (f : JsFile)
    (userId : String) :
    scraperIssuesFetch (handleSubmit url title false) = false ∧
    (f.size > 50 * 1024 * 1024 → modalOf (handleFileSelect (some f)) = none) ∧
    (jsIncludes f.type "pdf" = false →
      LegacyDashboard.handleFileUpload (some f) userId = none) := by
  refine ⟨?_, ?_, ?_⟩
  · unfold handleSubmit
    split
    · rfl
    · rfl
  · intro hsize
    simp [handleFileSelect, modalOf, hsize]
  · intro htype
    simp [LegacyDashboard.handleFileUpload, htype]

/-- An oversized (50 MB + 1 byte) file. -/
def oversizedFile : JsFile := ⟨"big.pdf", 50 * 1024 * 1024 + 1, "application/pdf"⟩

/-- A plain-text (non-PDF) file. -/
def textFile : JsFile := ⟨"notes.txt", 10, "text/plain"⟩

/-- Witness for C5 at concrete invalid inputs. -/
theorem invalid_inputs_rejected_before_fetch_witness :
    scraperIssuesFetch (handleSubmit "not a url" "" false) = false ∧
    modalOf (handleFileSelect (some oversizedFile)) = none ∧
    LegacyDashboard.handleFileUpload (some textFile) "u1" = none :=
  ⟨(invalid_inputs_rejected_before_fetch "not a url" "" oversizedFile "u1").1,
   (invalid_inputs_rejected_before_fetch "not a url" "" oversizedFile "u1").2.1
     (by decide),
   (invalid_inputs_rejected_before_fetch "not a url" "" textFile "u1").2.2
     (by decide)⟩

/-- **C4.** A chat request for a content item whose status is `processing` or
`failed` yields an explicit status error, never an answer; conversely an
answer is produced only for an item found in `processed` state, so no path
sends and answers a question for a book that is not processed.  (The backend
handler is modelled from the spec; see `chatEndpoint`.) -/
theorem chat_requires_processed_status (rag : String → String × List ChatSource)
    (db : DBState) (bid uid msg : String) :
    (∀ b, db.books.find? (fun r => r.id == bid && r.user_id == uid) = some b →
      b.status = "processing" ∨ b.status = "failed" →
      chatEndpoint rag db bid uid msg = .statusError b.status) ∧
    (∀ resp srcs, chatEndpoint rag db bid uid msg = .answer resp srcs →
      ∃ b, db.books.find? (fun r => r.id == bid && r.user_id == uid) = some b ∧
        b.status = "processed") := by
  constructor
  · intro b hb hst
    have hfalse : (b.status == "processed") = false := by
      rcases hst with h | h <;> rw [h] <;> decide
    simp [chatEndpoint, hb, hfalse]
  · intro resp srcs h
    unfold chatEndpoint at h
    split at h
    · exact absurd h (by simp)
    next b hf =>
      split at h
      next hs => exact ⟨b, hf, by simpa using hs⟩
      next => exact absurd h (by simp)

/-- A `books` row with only claim-relevant fields populated. -/
def mkBookRow (id user_id status : String) (ns : Option String) : BookRow :=
  { id := id, user_id := user_id, title := "Sample", filename := "sample.pdf",
    original_filename := "sample.pdf", file_size := none, file_type := "pdf",
    format_details := none, page_count := none, sheet_count := none,
    slide_count := none, paragraph_count := none, table_count := none,
    character_count := none, line_count := none, row_count := none,
    url_source := none, author := none, publish_date := none,
    description := none, keywords := none, extraction_method := none,
    image_size := none, image_mode := none, duration_seconds := none,
    encoding := none, status := status, error_message := none,
    pinecone_namespace := ns, upload_date := none, processed_date := none,
    created_at := none, updated_at := none }

/-- A book still in `processing` state. -/
def processingBook : BookRow := mkBookRow "b1" "u1" "processing" (some "ns1")

/-- A database holding only the processing book. -/
def processingDB : DBState := ⟨[processingBook], [], [], []⟩

/-- A stub retrieval-augmented responder. -/
def ragStub : String → String × List ChatSource := fun q => ("about " ++ q, [])

/-- Witness for C4 at a concrete processing book. -/
theorem chat_requires_processed_status_witness :
    chatEndpoint ragStub processingDB "b1" "u1" "hi" = .statusError "processing" :=
  (chat_requires_processed_status ragStub processingDB "b1" "u1" "hi").1
    processingBook rfl (Or.inl rfl)

/-- Collision of namespace values is symmetric. -/
theorem nsEq_symm (a b : Option String) : nsEq a b = nsEq b a := by
  cases a with
  | none => cases b <;> rfl
  | some x =>
    cases b with
    | none => rfl
    | some y =>
      show (x == y) = (y == x)
      by_cases h : x = y
      · rw [h]
      · rw [beq_eq_false_iff_ne.mpr h, beq_eq_false_iff_ne.mpr (Ne.symm h)]

/-- Under the invariant, at most one row carries any given namespace. -/
theorem nsInvariant_countP_le_one {t : BooksTable} (h : nsInvariant t) (v : String) :
    t.rows.countP (fun r => r.pinecone_namespace == some v) ≤ 1 := by
  unfold nsInvariant at h
  have aux : ∀ l : List BookRow,
      l.Pairwise (fun a b => nsEq a.pinecone_namespace b.pinecone_namespace = false) →
      l.countP (fun r => r.pinecone_namespace == some v) ≤ 1 := by
    intro l
    induction l with
    | nil => intro _; simp
    | cons r rs ih =>
      intro hl
      rcases List.pairwise_cons.mp hl with ⟨hr, hrs⟩
      rw [List.countP_cons]
      by_cases hp : (r.pinecone_namespace == some v) = true
      · have hz : rs.countP (fun r0 => r0.pinecone_namespace == some v) = 0 := by
          rw [List.countP_eq_zero]
          intro r0 hr0 hp0
          have h1 : r.pinecone_namespace = some v := by simpa using hp
          have h2 : r0.pinecone_namespace = some v := by simpa using hp0
          have hcol := hr r0 hr0
          rw [h1, h2] at hcol
          simp [nsEq] at hcol
        simp [hz, hp]
      · have hrec := ih hrs
        simp only [Bool.not_eq_true] at hp
        simp [hp]
        omega
  exact aux t.rows h

/-- Insertion preserves the namespace invariant. -/
theorem insertBook_preserves_nsInvariant {t : BooksTable} {r : BookRow}
    {t' : BooksTable} (hinv : nsInvariant t) (h : insertBook t r = some t') :
    nsInvariant t' := by
  unfold insertBook at h
  split at h
  next hcheck =>
    obtain rfl : BooksTable.mk (t.rows ++ [r]) = t' := by simpa using h
    simp only [Bool.and_eq_true, List.all_eq_true] at hcheck
    obtain ⟨⟨-, -⟩, hns⟩ := hcheck
    unfold nsInvariant
    rw [List.pairwise_append]
    refine ⟨hinv, List.pairwise_singleton _ _, ?_⟩
    intro a ha b hb
    rw [List.mem_singleton] at hb
    subst hb
    have := hns a ha
    simpa using this
  next => exact absurd h (by simp)

/-- A single-statement update preserves the namespace invariant (given
primary-key distinctness of the rows). -/
theorem updateBook_preserves_nsInvariant {t : BooksTable} {bid : String}
    {f : BookRow → BookRow} {t' : BooksTable} (hids : idsDistinct t)
    (hinv : nsInvariant t) (h : updateBook t bid f = some t') :
    nsInvariant t' := by
  unfold updateBook at h
  split at h
  next hcheck =>
    obtain rfl : BooksTable.mk (t.rows.map fun r => if r.id == bid then f r else r) = t' := by
      simpa using h
    simp only [List.all_eq_true, Bool.and_eq_true] at hcheck
    unfold nsInvariant at hinv ⊢
    unfold idsDistinct at hids
    simp only [List.pairwise_map]
    refine List.Pairwise.imp_of_mem ?_ (hinv.and hids)
    intro a b ha hb hR
    obtain ⟨hrel, hne⟩ := hR
    by_cases hA : (a.id == bid) = true <;> by_cases hB : (b.id == bid) = true
    · exact absurd ((eq_of_beq hA).trans (eq_of_beq hB).symm) hne
    · rw [if_pos hA, if_neg hB]
      have hmemA : a ∈ t.rows.filter (fun r => r.id == bid) :=
        List.mem_filter.mpr ⟨ha, hA⟩
      have hmemB : b ∈ t.rows.filter (fun r0 => r0.id != bid) :=
        List.mem_filter.mpr ⟨hb, by simpa using hB⟩
      have := (hcheck a hmemA).2 b hmemB
      simpa using this
    · rw [if_neg hA, if_pos hB]
      have hmemB : b ∈ t.rows.filter (fun r => r.id == bid) :=
        List.mem_filter.mpr ⟨hb, hB⟩
      have hmemA : a ∈ t.rows.filter (fun r0 => r0.id != bid) :=
        List.mem_filter.mpr ⟨ha, by simpa using hA⟩
      have := (hcheck b hmemB).2 a hmemA
      rw [nsEq_symm]
      simpa using this
    · rw [if_neg hA, if_neg hB]
      exact hrel
  next => exact absurd h (by simp)

/-- **C6.** The mapping from book rows to vector-index namespaces is
injective and stays so: under the `pinecone_namespace TEXT UNIQUE`
invariant at most one row carries any given namespace (each row has exactly
one, possibly `NULL`, namespace column), and the invariant is preserved by
every accepted `INSERT` and every accepted single-statement `UPDATE` on the
`books` table. -/
theorem books_namespace_injective :
    (∀ t : BooksTable, nsInvariant t → ∀ v : String,
      t.rows.countP (fun r => r.pinecone_namespace == some v) ≤ 1) ∧
    (∀ (t : BooksTable) (r : BookRow) (t' : BooksTable),
      nsInvariant t → insertBook t r = some t' → nsInvariant t') ∧
    (∀ (t : BooksTable) (bid : String) (f : BookRow → BookRow) (t' : BooksTable),
      idsDistinct t → nsInvariant t → updateBook t bid f = some t' →
      nsInvariant t') :=
  ⟨fun _ h v => nsInvariant_countP_le_one h v,
   fun _ _ _ hinv h => insertBook_preserves_nsInvariant hinv h,
   fun _ _ _ _ hids hinv h => updateBook_preserves_nsInvariant hids hinv h⟩

/-- Witness for C6: inserting into the empty table preserves the invariant
and the produced table has at most one row per namespace. -/
theorem books_namespace_injective_witness :
    nsInvariant ⟨[processingBook]⟩ ∧
    ([processingBook].countP (fun r => r.pinecone_namespace == some "ns1")) ≤ 1 := by
  have hinsert : nsInvariant ⟨[processingBook]⟩ :=
    books_namespace_injective.2.1 ⟨[]⟩ processingBook ⟨[processingBook]⟩
      List.Pairwise.nil rfl
  exact ⟨hinsert, books_namespace_injective.1 ⟨[processingBook]⟩ hinsert "ns1"⟩

/-- **C7.** Chat messages are append-only: over every sequence of the
system's chat-history operations (creates and fetches, the only operations
issued against the store — see `ChatHistoryOp`), the stored rows evolve
purely by appending, so a message row once created is never mutated or
replaced: it is still present, unchanged, at its position after any further
operations. -/
theorem chat_histories_append_only (rows : List ChatRow) (ops : List ChatHistoryOp) :
    (∃ appended, runChatHistoryOps rows ops = rows ++ appended) ∧
    (∀ (i : ℕ) (r : ChatRow), rows[i]? = some r →
      (runChatHistoryOps rows ops)[i]? = some r) := by
  have main : ∀ (ops : List ChatHistoryOp) (rows : List ChatRow),
      ∃ appended, runChatHistoryOps rows ops = rows ++ appended := by
    intro ops
    induction ops with
    | nil => intro rows; exact ⟨[], by simp [runChatHistoryOps]⟩
    | cons op ops ih =>
      intro rows
      cases op with
      | create r =>
        obtain ⟨app, happ⟩ := ih (rows ++ [r])
        refine ⟨[r] ++ app, ?_⟩
        calc runChatHistoryOps rows (.create r :: ops)
            = runChatHistoryOps (rows ++ [r]) ops := rfl
          _ = (rows ++ [r]) ++ app := happ
          _ = rows ++ ([r] ++ app) := by simp
      | fetch b u =>
        obtain ⟨app, happ⟩ := ih rows
        exact ⟨app, happ⟩
  obtain ⟨app, happ⟩ := main ops rows
  refine ⟨⟨app, happ⟩, ?_⟩
  intro i r hir
  have hi : i < rows.length := by
    by_contra hge
    push_neg at hge
    rw [List.getElem?_eq_none hge] at hir
    exact absurd hir (by simp)
  rw [happ, List.getElem?_append_left hi]
  exact hir

/-- A concrete stored chat message. -/
def chatRow1 : ChatRow :=
  ⟨"m1", none, "b1", "u1", "user", "What is this about?", none, none, none⟩

/-- Witness for C7 on a concrete operation sequence. -/
theorem chat_histories_append_only_witness :
    ∃ appended,
      runChatHistoryOps [chatRow1]
        [.create ⟨"m2", none, "b1", "u1", "assistant", "A summary.", none, none, none⟩,
         .fetch "b1" "u1"] = [chatRow1] ++ appended :=
  (chat_histories_append_only [chatRow1]
    [.create ⟨"m2", none, "b1", "u1", "assistant", "A summary.", none, none, none⟩,
     .fetch "b1" "u1"]).1

/-- **C8.** Deleting a book cascades: afterwards no `chat_histories`,
`conversations` or `mcqs` row references the book, the owner can no longer
retrieve its chat history, and a subsequent chat request for its id yields
the not-found error. -/
theorem delete_book_cascades (db : DBState) (bid uid msg : String)
    (rag : String → String × List ChatSource) :
    (∀ m ∈ (deleteBookCascade db bid).chat_histories, m.book_id ≠ bid) ∧
    (∀ c ∈ (deleteBookCascade db bid).conversations, c.book_id ≠ bid) ∧
    (∀ m ∈ (deleteBookCascade db bid).mcqs, m.book_id ≠ bid) ∧
    chatHistoryFor (deleteBookCascade db bid) bid uid = [] ∧
    chatEndpoint rag (deleteBookCascade db bid) bid uid msg = .notFound := by
  have hchat : ∀ m ∈ (deleteBookCascade db bid).chat_histories, m.book_id ≠ bid := by
    intro m hm
    unfold deleteBookCascade at hm
    simp only [List.mem_filter, Bool.and_eq_true] at hm
    simpa using hm.2.1
  refine ⟨hchat, ?_, ?_, ?_, ?_⟩
  · intro c hc
    unfold deleteBookCascade at hc
    simp only [List.mem_filter] at hc
    simpa using hc.2
  · intro m hm
    unfold deleteBookCascade at hm
    simp only [List.mem_filter] at hm
    simpa using hm.2
  · unfold chatHistoryFor
    rw [List.filter_eq_nil_iff]
    intro m hm
    have := hchat m hm
    simp [this]
  · unfold chatEndpoint
    have hnone : (deleteBookCascade db bid).books.find?
        (fun b => b.id == bid && b.user_id == uid) = none := by
      rw [List.find?_eq_none]
      intro b hb
      unfold deleteBookCascade at hb
      simp only [List.mem_filter] at hb
      have hne : b.id ≠ bid := by simpa using hb.2
      simp [hne]
    rw [hnone]

/-- A conversation, and an MCQ batch row, attached to book `b1`. -/
def conv1 : ConversationRow := ⟨"c1", "b1", "u1", "First chat", none, none⟩

/-- A stored MCQ row for book `b1`. -/
def mcqRow1 : McqRow := ⟨"q1", "b1", "u1", "Q?", .arr [], "a", none, none, none⟩

/-- A database holding the book with all three kinds of dependents. -/
def fullDB : DBState := ⟨[processingBook], [conv1], [chatRow1], [mcqRow1]⟩

/-- Witness for C8 on the concrete populated database. -/
theorem delete_book_cascades_witness :
    chatHistoryFor (deleteBookCascade fullDB "b1") "b1" "u1" = [] ∧
    chatEndpoint ragStub (deleteBookCascade fullDB "b1") "b1" "u1" "hi" = .notFound :=
  ⟨(delete_book_cascades fullDB "b1" "u1" "hi" ragStub).2.2.2.1,
   (delete_book_cascades fullDB "b1" "u1" "hi" ragStub).2.2.2.2⟩

end LearnGenie
